import Mathlib

/-!
Shallow embedding of the hypervisor abstraction layer
(src/hypervisor/src/hypervisor.rs and src/hypervisor/src/device.rs):
the two-tier error taxonomies, the Hypervisor trait with its default
method bodies, and the leaf-0 CPU vendor classification.
-/

namespace CloudHypervisor

/-- A low-level I/O-class failure (std::io::Error), modelled by its Debug
rendering, which is all this layer ever does with it (the thiserror format
strings interpolate it with a Debug directive). -/
structure IoError where
  msg : String
deriving DecidableEq

/-- Debug rendering of the underlying I/O error. -/
def IoError.render (e : IoError) : String := e.msg

/-- Low-level operation error `Error` (hypervisor.rs lines 25-45): each
variant except `UnsupportedCpu` wraps a `std::io::Error` marked
`#[source]`. -/
inductive Error where
  | HypervisorAvailableCheck (io : IoError)
  | HypervisorCreate (io : IoError)
  | GetApiVersion (io : IoError)
  | CheckExtensions (io : IoError)
  | GetCpuId (io : IoError)
  | GetMsrList (io : IoError)
  | TdxCapabilities (io : IoError)
  | SetPartitionProperty (io : IoError)
  | UnsupportedCpu
deriving DecidableEq

/-- The source-chain accessor generated by thiserror for `Error`: every
`#[source]`-marked field is returned; `UnsupportedCpu` has none. -/
def Error.source : Error → Option IoError
  | .HypervisorAvailableCheck io => some io
  | .HypervisorCreate io => some io
  | .GetApiVersion io => some io
  | .CheckExtensions io => some io
  | .GetCpuId io => some io
  | .GetMsrList io => some io
  | .TdxCapabilities io => some io
  | .SetPartitionProperty io => some io
  | .UnsupportedCpu => none

/-- Display rendering of `Error` per its `#[error(...)]` attributes; the
Debug directive on the wrapped cause becomes `IoError.render`. -/
def Error.render : Error → String
  | .HypervisorAvailableCheck io =>
      "Failed to check availability of the hypervisor: " ++ io.render
  | .HypervisorCreate io => "Failed to create the hypervisor: " ++ io.render
  | .GetApiVersion io => "Failed to get API Version: " ++ io.render
  | .CheckExtensions io => "Checking extensions: " ++ io.render
  | .GetCpuId io => "Failed to get cpuid: " ++ io.render
  | .GetMsrList io => "Failed to get the list of supported MSRs: " ++ io.render
  | .TdxCapabilities io => "Failed to retrieve TDX capabilities: " ++ io.render
  | .SetPartitionProperty io => "Failed to set partition property: " ++ io.render
  | .UnsupportedCpu => "Unsupported CPU"

/-- Low-level VM error `VmError` (hypervisor.rs lines 47-53). -/
inductive VmError where
  | VmCreate (io : IoError)
  | VmSetup (io : IoError)
deriving DecidableEq

/-- Source accessor for `VmError`: both variants wrap an I/O error. -/
def VmError.source : VmError → Option IoError
  | .VmCreate io => some io
  | .VmSetup io => some io

/-- Display rendering of `VmError` per its `#[error(...)]` attributes. -/
def VmError.render : VmError → String
  | .VmCreate io => "Failed to create Vm: " ++ io.render
  | .VmSetup io => "Failed to setup Vm: " ++ io.render

/-- Situated operation-level error `HypervisorError` (hypervisor.rs lines
55-122): each variant except `IncompatibleApiVersion` and
`UnsupportedVmType` wraps a lower-level error marked `#[source]`. -/
inductive HypervisorError where
  | HypervisorAvailableCheck (e : Error)
  | HypervisorCreate (e : Error)
  | VmCreate (v : VmError)
  | VmSetup (v : VmError)
  | GetApiVersion (e : Error)
  | GetCpuId (e : Error)
  | GetMsrList (e : Error)
  | IncompatibleApiVersion
  | CheckExtensions (e : Error)
  | TdxCapabilities (e : Error)
  | SetPartitionProperty (e : Error)
  | UnsupportedCpu (e : Error)
  | UnsupportedVmType
deriving DecidableEq

/-- What a `HypervisorError`'s source chain can hand back: either a
low-level `Error` or a low-level `VmError` (in Rust, a `&dyn Error`). -/
inductive ErrorSource where
  | ofError (e : Error)
  | ofVmError (v : VmError)
deriving DecidableEq

/-- Rendering of a retrieved source value: whichever low-level error it
is, rendered as itself. -/
def ErrorSource.render : ErrorSource → String
  | .ofError e => e.render
  | .ofVmError v => v.render

/-- The source-chain accessor generated by thiserror for
`HypervisorError`: every `#[source]`-marked field is returned as-is. -/
def HypervisorError.source : HypervisorError → Option ErrorSource
  | .HypervisorAvailableCheck e => some (.ofError e)
  | .HypervisorCreate e => some (.ofError e)
  | .VmCreate v => some (.ofVmError v)
  | .VmSetup v => some (.ofVmError v)
  | .GetApiVersion e => some (.ofError e)
  | .GetCpuId e => some (.ofError e)
  | .GetMsrList e => some (.ofError e)
  | .IncompatibleApiVersion => none
  | .CheckExtensions e => some (.ofError e)
  | .TdxCapabilities e => some (.ofError e)
  | .SetPartitionProperty e => some (.ofError e)
  | .UnsupportedCpu e => some (.ofError e)
  | .UnsupportedVmType => none

/-- Display rendering of `HypervisorError` per its `#[error(...)]`
attributes (these carry no interpolation of the cause). -/
def HypervisorError.render : HypervisorError → String
  | .HypervisorAvailableCheck _ => "Failed to check availability of the hypervisor"
  | .HypervisorCreate _ => "Failed to create the hypervisor"
  | .VmCreate _ => "Failed to create Vm"
  | .VmSetup _ => "Failed to setup Vm"
  | .GetApiVersion _ => "Failed to get API Version"
  | .GetCpuId _ => "Failed to get cpuid"
  | .GetMsrList _ => "Failed to get the list of supported MSRs"
  | .IncompatibleApiVersion => "Incompatible API version"
  | .CheckExtensions _ => "Checking extensions"
  | .TdxCapabilities _ => "Failed to retrieve TDX capabilities"
  | .SetPartitionProperty _ => "Failed to set partition property"
  | .UnsupportedCpu _ => "Unsupported CPU"
  | .UnsupportedVmType => "Unsupported VmType"

/-- Low-level device error `DeviceError` (device.rs lines 14-20): both
variants wrap a `std::io::Error` marked `#[source]`. -/
inductive DeviceError where
  | SetDeviceAttribute (io : IoError)
  | GetDeviceAttribute (io : IoError)
deriving DecidableEq

/-- Source accessor for `DeviceError`. -/
def DeviceError.source : DeviceError → Option IoError
  | .SetDeviceAttribute io => some io
  | .GetDeviceAttribute io => some io

/-- Display rendering of `DeviceError` per its `#[error(...)]`
attributes. -/
def DeviceError.render : DeviceError → String
  | .SetDeviceAttribute io => "Failed to set device attribute: " ++ io.render
  | .GetDeviceAttribute io => "Failed to get device attribute: " ++ io.render

/-- Situated device-attribute error `HypervisorDeviceError` (device.rs
lines 22-36): each variant wraps a `DeviceError` marked `#[source]`. -/
inductive HypervisorDeviceError where
  | SetDeviceAttribute (d : DeviceError)
  | GetDeviceAttribute (d : DeviceError)
deriving DecidableEq

/-- Source accessor for `HypervisorDeviceError`: returns the wrapped
`DeviceError` as-is. -/
def HypervisorDeviceError.source : HypervisorDeviceError → Option DeviceError
  | .SetDeviceAttribute d => some d
  | .GetDeviceAttribute d => some d

/-- Display rendering of `HypervisorDeviceError` per its `#[error(...)]`
attributes. -/
def HypervisorDeviceError.render : HypervisorDeviceError → String
  | .SetDeviceAttribute _ => "Failed to set device attribute"
  | .GetDeviceAttribute _ => "Failed to get device attribute"

/-- Spec-side predicate, written to the claim's words for a refinement
check: a situated set-attribute error wraps a low-level set-attribute
error and a situated get-attribute error wraps a low-level get-attribute
error. -/
def matchesKind : HypervisorDeviceError → Bool
  | .SetDeviceAttribute (.SetDeviceAttribute _) => true
  | .SetDeviceAttribute (.GetDeviceAttribute _) => false
  | .GetDeviceAttribute (.GetDeviceAttribute _) => true
  | .GetDeviceAttribute (.SetDeviceAttribute _) => false

/-- Modelled from the spec: `CpuVendor` (crate::cpu, not part of this
fragment) is the enumerated classification, with Unknown as the
default. -/
inductive CpuVendor where
  | Intel
  | AMD
  | Unknown
deriving DecidableEq

/-- Modelled from the spec: the default/unknown vendor value returned by
`CpuVendor::default()`. -/
def CpuVendor.default : CpuVendor := .Unknown

/-- The four 32-bit registers returned by the CPU identification
instruction (`x86_64::__cpuid`). -/
structure CpuidResult where
  eax : Nat
  ebx : Nat
  ecx : Nat
  edx : Nat
deriving DecidableEq

/-- Default implementation of `Hypervisor::get_cpu_vendor` (hypervisor.rs
lines 180-198), as a pure function of the leaf-0 register values the
identification instruction returned. -/
def get_cpu_vendor (leaf : CpuidResult) : CpuVendor :=
  if leaf.ebx = 0x756e6547 ∧ leaf.ecx = 0x6c65746e ∧ leaf.edx = 0x49656e69 then
    CpuVendor.Intel
  else if leaf.ebx = 0x68747541 ∧ leaf.ecx = 0x444d4163 ∧ leaf.edx = 0x69746e65 then
    CpuVendor.AMD
  else
    CpuVendor.default

/-- Modelled from the spec: `HypervisorType` (crate root, not part of
this fragment) is the enumerated tag identifying which native backend is
active. -/
inductive HypervisorType where
  | kvm
  | mshv
deriving DecidableEq

/-- Modelled from the spec: `HypervisorVmConfig` (crate root, not part of
this fragment) is an opaque caller-supplied configuration value (memory
size, vCPU count, feature flags). -/
structure HypervisorVmConfig where
  memory_size : Nat
  vcpu_count : Nat
  feature_flags : Nat
deriving DecidableEq

/-- Modelled from the spec: `TdxCapabilities` (crate::kvm, not part of
this fragment) is an opaque capability record. -/
structure TdxCapabilities where
  raw : Nat
deriving DecidableEq

/-- Modelled from the spec: `CpuIdEntry` (crate::arch::x86, not part of
this fragment) is one CPU feature leaf the backend exposes to guests. -/
structure CpuIdEntry where
  function : Nat
  index : Nat
deriving DecidableEq

/-- Modelled from the spec: the opaque backend-specific VM object behind
`Arc<dyn Vm>`; this layer only defines how it is obtained and owned. -/
structure VmHandle where
  native : Nat
deriving DecidableEq

/-- Result type of this layer: `std::result::Result<T, HypervisorError>`
(hypervisor.rs line 127). -/
abbrev HvResult (α : Type) : Type := Except HypervisorError α

/-- Outcome of calling a method whose body may be a fatal
`unimplemented!()` rather than returning: either it aborts the process
with a message, or it returns a value. -/
inductive Outcome (α : Type) where
  | fatal (msg : String)
  | returns (a : α)
deriving DecidableEq

/-- Default body of `Hypervisor::check_required_extensions` (hypervisor.rs
lines 152-154): `Ok(())`, for any receiver. -/
def check_required_extensions_default {Self : Type} (_self : Self) :
    HvResult Unit :=
  Except.ok ()

/-- Default body of `Hypervisor::tdx_capabilities` (hypervisor.rs lines
163-166): `unimplemented!()`, for any receiver. -/
def tdx_capabilities_default {Self : Type} (_self : Self) :
    Outcome (HvResult TdxCapabilities) :=
  Outcome.fatal "not implemented"

/-- Default body of `Hypervisor::get_guest_debug_hw_bps` (hypervisor.rs
lines 170-172): `unimplemented!()`, for any receiver. -/
def get_guest_debug_hw_bps_default {Self : Type} (_self : Self) :
    Outcome Nat :=
  Outcome.fatal "not implemented"

/-- The `Hypervisor` trait (hypervisor.rs lines 134-199) as a method
table over a receiver type `Self`: required methods are fields without
defaults, overridable methods default to the bodies above. All trait
methods take `&self`, so each is embedded as a pure function of the
receiver; `get_cpu_vendor` additionally receives the leaf-0 register
values the identification instruction produced on the host. -/
structure Hypervisor (Self : Type) where
  hypervisor_type : Self → HypervisorType
  create_vm : Self → HypervisorVmConfig → HvResult VmHandle
  get_supported_cpuid : Self → HvResult (List CpuIdEntry)
  check_required_extensions : Self → HvResult Unit :=
    check_required_extensions_default
  tdx_capabilities : Self → Outcome (HvResult TdxCapabilities) :=
    tdx_capabilities_default
  get_guest_debug_hw_bps : Self → Outcome Nat :=
    get_guest_debug_hw_bps_default
  get_max_vcpus : Self → Nat
  get_cpu_vendor : Self → CpuidResult → CpuVendor :=
    fun _ leaf => CloudHypervisor.get_cpu_vendor leaf

/-- The list of values produced by calling `hypervisor_type` on the same
receiver `n` times in a row. -/
def repeated_hypervisor_type {Self : Type} (h : Hypervisor Self)
    (s : Self) : Nat → List HypervisorType
  | 0 => []
  | n + 1 => h.hypervisor_type s :: repeated_hypervisor_type h s n

/-- Modelled from the spec: one operation on a shared reference-counted
VM handle (`Arc<dyn Vm>` is std library code, not part of this
fragment) — a holder either duplicates its reference or drops it. -/
inductive ArcOp where
  | clone
  | drop
deriving DecidableEq

/-- Modelled from the spec: the observable state of a reference-counted
VM handle — the number of live holders and the number of times the
underlying native resource has been released. -/
structure ArcState where
  count : Nat
  released : Nat
deriving DecidableEq

/-- Modelled from the spec: one step of the reference-counted handle.
Cloning adds a holder; dropping removes one, and the drop that removes
the last holder releases the native resource; a drop when no holder is
live releases nothing (double release is structurally impossible). -/
def ArcState.step (s : ArcState) : ArcOp → ArcState
  | .clone => ⟨s.count + 1, s.released⟩
  | .drop =>
      if s.count = 1 then ⟨0, s.released + 1⟩
      else ⟨s.count - 1, s.released⟩

/-- Run a trace of clone/drop operations from a given handle state. -/
def ArcState.run (s : ArcState) (ops : List ArcOp) : ArcState :=
  ops.foldl ArcState.step s

/-- The state of a handle freshly returned by `create_vm`: one holder,
nothing released yet. -/
def ArcState.fresh : ArcState := ⟨1, 0⟩

theorem ArcState.run_cons (s : ArcState) (op : ArcOp)
    (ops : List ArcOp) :
    ArcState.run s (op :: ops) = ArcState.run (s.step op) ops :=
  rfl

/-- A trace is valid from a holder count when every operation is taken by
a live holder: no clone or drop happens once the count is zero. -/
def validTrace : Nat → List ArcOp → Bool
  | _, [] => true
  | c, op :: rest =>
      decide (0 < c) && validTrace (ArcState.step ⟨c, 0⟩ op).count rest

/-- A mock backend over a unit receiver that provides only the required
methods and overrides none of the defaulted ones. -/
def mockBackend : Hypervisor Unit where
  hypervisor_type := fun _ => HypervisorType.kvm
  create_vm := fun _ _ => Except.ok ⟨0⟩
  get_supported_cpuid := fun _ => Except.ok []
  get_max_vcpus := fun _ => 255

/-- C1: the default `get_cpu_vendor` classifies the Intel leaf-0 triple
as Intel, the AMD triple as AMD, and every other triple as the
default/unknown vendor; being a total function it never errors. -/
theorem get_cpu_vendor_classification :
    (∀ eax, get_cpu_vendor ⟨eax, 0x756e6547, 0x6c65746e, 0x49656e69⟩ =
      CpuVendor.Intel) ∧
    (∀ eax, get_cpu_vendor ⟨eax, 0x68747541, 0x444d4163, 0x69746e65⟩ =
      CpuVendor.AMD) ∧
    ∀ eax ebx ecx edx,
      ¬(ebx = 0x756e6547 ∧ ecx = 0x6c65746e ∧ edx = 0x49656e69) →
      ¬(ebx = 0x68747541 ∧ ecx = 0x444d4163 ∧ edx = 0x69746e65) →
      get_cpu_vendor ⟨eax, ebx, ecx, edx⟩ = CpuVendor.Unknown := by
  refine ⟨fun eax => by simp [get_cpu_vendor],
          fun eax => by simp [get_cpu_vendor], ?_⟩
  intro eax ebx ecx edx n1 n2
  simp only [get_cpu_vendor]
  rw [if_neg n1, if_neg n2]
  rfl

/-- Witness for C1: an arbitrary unknown triple classifies as Unknown. -/
theorem get_cpu_vendor_classification_witness :
    get_cpu_vendor ⟨0, 1, 2, 3⟩ = CpuVendor.Unknown :=
  get_cpu_vendor_classification.2.2 0 1 2 3 (by decide) (by decide)

/-- C2: every situated error variant of `HypervisorError` or
`HypervisorDeviceError` constructed wrapping a lower-level cause returns
exactly that cause through its source accessor, and the retrieved source
renders identically to the cause; no variant downgrades its cause to a
string. -/
theorem situated_errors_preserve_cause (e : Error) (v : VmError)
    (d : DeviceError) :
    (HypervisorError.HypervisorAvailableCheck e).source =
      some (ErrorSource.ofError e) ∧
    (HypervisorError.HypervisorCreate e).source =
      some (ErrorSource.ofError e) ∧
    (HypervisorError.VmCreate v).source = some (ErrorSource.ofVmError v) ∧
    (HypervisorError.VmSetup v).source = some (ErrorSource.ofVmError v) ∧
    (HypervisorError.GetApiVersion e).source =
      some (ErrorSource.ofError e) ∧
    (HypervisorError.GetCpuId e).source = some (ErrorSource.ofError e) ∧
    (HypervisorError.GetMsrList e).source = some (ErrorSource.ofError e) ∧
    (HypervisorError.CheckExtensions e).source =
      some (ErrorSource.ofError e) ∧
    (HypervisorError.TdxCapabilities e).source =
      some (ErrorSource.ofError e) ∧
    (HypervisorError.SetPartitionProperty e).source =
      some (ErrorSource.ofError e) ∧
    (HypervisorError.UnsupportedCpu e).source =
      some (ErrorSource.ofError e) ∧
    (HypervisorDeviceError.SetDeviceAttribute d).source = some d ∧
    (HypervisorDeviceError.GetDeviceAttribute d).source = some d ∧
    ErrorSource.render (ErrorSource.ofError e) = e.render ∧
    ErrorSource.render (ErrorSource.ofVmError v) = v.render :=
  ⟨rfl, rfl, rfl, rfl, rfl, rfl, rfl, rfl, rfl, rfl, rfl, rfl, rfl, rfl,
   rfl⟩

/-- C3 counterexample: the situated unsupported-CPU error does not stand
alone — at the concrete input `HypervisorError.UnsupportedCpu
Error.UnsupportedCpu` the source accessor yields a wrapped cause. -/
theorem unsupportedCpu_has_source_cex :
    (HypervisorError.UnsupportedCpu Error.UnsupportedCpu).source =
      some (ErrorSource.ofError Error.UnsupportedCpu) :=
  rfl

/-- C3 amended: every situated unsupported-CPU error wraps a low-level
`Error` cause, retrievable through the source accessor; the pure logic
error with no cause is the low-level `Error.UnsupportedCpu`, not the
situated variant. -/
theorem unsupportedCpu_wraps_low_level (e : Error) :
    (HypervisorError.UnsupportedCpu e).source =
      some (ErrorSource.ofError e) ∧
    Error.UnsupportedCpu.source = none :=
  ⟨rfl, rfl⟩

/-- C4 counterexample: the device-attribute situated error type does not
force the wrapped low-level kind to match — a situated set-attribute
error wrapping a low-level get-attribute error is a value of the type. -/
theorem hypervisorDeviceError_matching_cex :
    matchesKind (HypervisorDeviceError.SetDeviceAttribute
      (DeviceError.GetDeviceAttribute ⟨"EINVAL"⟩)) = false :=
  rfl

/-- C4 amended: each situated device-attribute variant wraps a low-level
`DeviceError` value, retrievable as its source; the matching of kinds is
not enforced by the type (see the counterexample). -/
theorem hypervisorDeviceError_wraps_deviceError (d : DeviceError) :
    (HypervisorDeviceError.SetDeviceAttribute d).source = some d ∧
    (HypervisorDeviceError.GetDeviceAttribute d).source = some d :=
  ⟨rfl, rfl⟩

/-- C5: the default bodies of `tdx_capabilities` and
`get_guest_debug_hw_bps` are fatal (`unimplemented!()`) for every
receiver, never returning a result value; a backend that overrides
nothing, such as `mockBackend`, inherits them. -/
theorem default_optional_capabilities_fatal (Self : Type) (s : Self) :
    tdx_capabilities_default s = Outcome.fatal "not implemented" ∧
    get_guest_debug_hw_bps_default s = Outcome.fatal "not implemented" ∧
    (∀ r, tdx_capabilities_default s ≠ Outcome.returns r) ∧
    (∀ n, get_guest_debug_hw_bps_default s ≠ Outcome.returns n) ∧
    mockBackend.tdx_capabilities () = Outcome.fatal "not implemented" ∧
    mockBackend.get_guest_debug_hw_bps () =
      Outcome.fatal "not implemented" :=
  ⟨rfl, rfl, fun _ h => Outcome.noConfusion h,
   fun _ h => Outcome.noConfusion h, rfl, rfl⟩

/-- Witness for C5 at the unit receiver. -/
theorem default_optional_capabilities_fatal_witness :
    tdx_capabilities_default () = Outcome.fatal "not implemented" ∧
    get_guest_debug_hw_bps_default () =
      Outcome.fatal "not implemented" :=
  ⟨(default_optional_capabilities_fatal Unit ()).1,
   (default_optional_capabilities_fatal Unit ()).2.1⟩

/-- C6: the default body of `check_required_extensions` returns `Ok(())`
unconditionally, for every receiver; a backend that overrides nothing,
such as `mockBackend`, inherits it. -/
theorem check_required_extensions_default_ok (Self : Type) (s : Self) :
    check_required_extensions_default s = Except.ok () ∧
    mockBackend.check_required_extensions () = Except.ok () :=
  ⟨rfl, rfl⟩

/-- C7: `hypervisor_type` never fails (its embedded type is total, with
no error component) and is idempotent — `n` repeated calls on the same
backend instance all return the one same value. -/
theorem hypervisor_type_idempotent (Self : Type) (h : Hypervisor Self)
    (s : Self) (n : Nat) :
    repeated_hypervisor_type h s n =
      List.replicate n (h.hypervisor_type s) := by
  induction n with
  | zero => rfl
  | succ n ih => simp [repeated_hypervisor_type, ih, List.replicate_succ]

/-- Invariant of the reference-counted handle: along any valid trace,
the release count is 1 exactly when the holder count has reached zero,
and 0 otherwise. -/
theorem arc_run_invariant (ops : List ArcOp) :
    ∀ c r, r = (if c = 0 then 1 else 0) → validTrace c ops = true →
      (ArcState.run ⟨c, r⟩ ops).released =
        if (ArcState.run ⟨c, r⟩ ops).count = 0 then 1 else 0 := by
  induction ops with
  | nil =>
    intro c r hr _
    simpa [ArcState.run] using hr
  | cons op rest ih =>
    intro c r hr hv
    simp only [validTrace, Bool.and_eq_true, decide_eq_true_eq] at hv
    obtain ⟨hc, hrest⟩ := hv
    have hr0 : r = 0 := by
      rw [hr, if_neg (Nat.pos_iff_ne_zero.mp hc)]
    subst hr0
    rw [ArcState.run_cons]
    cases op with
    | clone =>
      exact ih (c + 1) 0 (by simp) hrest
    | drop =>
      by_cases h1 : c = 1
      · subst h1
        have hstep : ArcState.step ⟨1, 0⟩ ArcOp.drop = ⟨0, 1⟩ := rfl
        rw [hstep] at hrest ⊢
        exact ih 0 1 (by simp) hrest
      · have hstep : ArcState.step ⟨c, 0⟩ ArcOp.drop = ⟨c - 1, 0⟩ := by
          simp [ArcState.step, h1]
        rw [hstep] at hrest ⊢
        have hne : ¬(c - 1 = 0) := by omega
        exact ih (c - 1) 0 (by rw [if_neg hne]) hrest

/-- C8: along any valid trace of clone/drop operations on a handle fresh
from `create_vm`, the native resource is released at most once, exactly
once when the last holder has dropped, and a drop taken when no holder
is live releases nothing (no double release). -/
theorem vm_handle_released_exactly_once (ops : List ArcOp)
    (hv : validTrace 1 ops = true) :
    (ArcState.run ArcState.fresh ops).released ≤ 1 ∧
    (ArcState.run ArcState.fresh ops).released =
      (if (ArcState.run ArcState.fresh ops).count = 0 then 1 else 0) ∧
    ∀ n : Nat, (ArcState.step ⟨0, n⟩ ArcOp.drop).released = n := by
  have h := arc_run_invariant ops 1 0 (by simp) hv
  simp only [ArcState.fresh]
  refine ⟨?_, h, fun n => rfl⟩
  rw [h]
  split <;> simp

/-- Witness for C8: the trace clone, drop, drop is valid from a fresh
handle and releases the resource exactly once. -/
theorem vm_handle_released_exactly_once_witness :
    (ArcState.run ArcState.fresh
      [ArcOp.clone, ArcOp.drop, ArcOp.drop]).released = 1 := by
  have h := vm_handle_released_exactly_once
    [ArcOp.clone, ArcOp.drop, ArcOp.drop] (by decide)
  rw [h.2.1]
  decide

/-- C10: the low-level `Error.UnsupportedCpu` carries no wrapped cause —
its source is none — while every other `Error` variant wraps an I/O
error; and the situated `HypervisorError.UnsupportedCpu` wraps a
low-level `Error` value, not an I/O error directly. -/
theorem error_unsupportedCpu_no_cause (io : IoError) (e : Error) :
    Error.UnsupportedCpu.source = none ∧
    (Error.HypervisorAvailableCheck io).source = some io ∧
    (Error.HypervisorCreate io).source = some io ∧
    (Error.GetApiVersion io).source = some io ∧
    (Error.CheckExtensions io).source = some io ∧
    (Error.GetCpuId io).source = some io ∧
    (Error.GetMsrList io).source = some io ∧
    (Error.TdxCapabilities io).source = some io ∧
    (Error.SetPartitionProperty io).source = some io ∧
    (HypervisorError.UnsupportedCpu e).source =
      some (ErrorSource.ofError e) :=
  ⟨rfl, rfl, rfl, rfl, rfl, rfl, rfl, rfl, rfl, rfl⟩

end CloudHypervisor
